import Mathlib

/-!
Verification of the Chromatic Rush game engine core (ECS runtime and
per-frame simulation handlers), shallowly embedded from the JavaScript
source.

Modelling conventions:
* JavaScript numbers are modelled as exact rationals (`Rat`); the claims
  under study concern control flow, clamping and thresholds, not float
  rounding.
* Calls to external collaborators (UI widgets, renderer, audio, particle
  effect spawning driven by `Math.random`) are side effects outside the
  simulation state; where a claim mentions them they are modelled as
  event logs (`sounds`, `notifications`, save counters), otherwise they
  are omitted.
* A JavaScript `Map` (unique keys) is modelled as an association list;
  `Map.set` replaces the entry in place, `Map.delete` removes the entry
  with the key, modelled as a filter over the (unique) key.
* A JavaScript `Set` is modelled as a list without duplicates.
-/

namespace ChromaticRush

/-- Health component (class `Health`): current/max hit points plus the
invulnerability latch and its remaining time. -/
structure Health where
  current : Rat
  max : Rat
  invulnerable : Bool
  invulnerabilityTime : Rat
deriving DecidableEq, Repr

/-- `Health.takeDamage(amount)`: returns `false` and changes nothing while
invulnerable; otherwise clamps `current - amount` at zero from below and
reports `true`. -/
def Health.takeDamage (h : Health) (amount : Rat) : Health × Bool :=
  if h.invulnerable then (h, false)
  else ({ h with current := Max.max 0 (h.current - amount) }, true)

/-- `Health.heal(amount)`: clamps `current + amount` at `max` from above. -/
def Health.heal (h : Health) (amount : Rat) : Health :=
  { h with current := Min.min h.max (h.current + amount) }

/-- Claim C1 helper: the component classes defined by the program; a
component kind outside this list matches no component class. -/
def knownComponentClasses : List String :=
  ["Transform", "Velocity", "Sprite", "Animation", "Physics", "Collider",
   "Health", "PlayerController", "AIController", "Collectible", "Particle",
   "Obstacle", "StreetArt"]

/-- Claim C3: `takeDamage` while invulnerable returns `false` and leaves
`current` unchanged (for every amount, even negative ones), and for
nonnegative damage/heal amounts both `takeDamage` and `heal` keep
`current` within `[0, max]`. -/
theorem claim_C3 (h : Health) (amount : Rat)
    (hlo : 0 ≤ h.current) (hhi : h.current ≤ h.max) :
    (h.invulnerable = true → h.takeDamage amount = (h, false)) ∧
    (0 ≤ amount →
      0 ≤ (h.takeDamage amount).1.current ∧
      (h.takeDamage amount).1.current ≤ (h.takeDamage amount).1.max ∧
      0 ≤ (h.heal amount).current ∧
      (h.heal amount).current ≤ (h.heal amount).max) := by
  constructor
  · intro hinv
    simp [Health.takeDamage, hinv]
  · intro hamt
    have hmax0 : (0 : Rat) ≤ h.max := le_trans hlo hhi
    by_cases hinv : h.invulnerable = true
    · have ht : h.takeDamage amount = (h, false) := by
        simp [Health.takeDamage, hinv]
      rw [ht]
      exact ⟨hlo, hhi, le_min hmax0 (by linarith), min_le_left _ _⟩
    · have ht : (h.takeDamage amount).1 =
          { h with current := Max.max 0 (h.current - amount) } := by
        simp [Health.takeDamage, hinv]
      rw [ht]
      exact ⟨le_max_left _ _, max_le hmax0 (by linarith),
        le_min hmax0 (by linarith), min_le_left _ _⟩

/-- Witness for C3 at a concrete health component and damage amount. -/
theorem claim_C3_witness :
    0 ≤ ((Health.mk 2 3 false 0).takeDamage 1).1.current ∧
    ((Health.mk 2 3 false 0).takeDamage 1).1.current ≤
      ((Health.mk 2 3 false 0).takeDamage 1).1.max ∧
    0 ≤ ((Health.mk 2 3 false 0).heal 1).current ∧
    ((Health.mk 2 3 false 0).heal 1).current ≤
      ((Health.mk 2 3 false 0).heal 1).max :=
  (claim_C3 (Health.mk 2 3 false 0) 1 (by decide) (by decide)).2 (by decide)

/-- Transform component (class `Transform`): position, size, rotation,
scale and the previous position snapshot. -/
structure Transform where
  x : Rat
  y : Rat
  width : Rat
  height : Rat
  rotation : Rat
  scale : Rat
  previousX : Rat
  previousY : Rat
deriving DecidableEq, Repr

/-- Collider component (class `Collider`): axis-aligned box with offsets,
trigger flag, layer name and tag set. -/
structure Collider where
  width : Rat
  height : Rat
  offsetX : Rat
  offsetY : Rat
  isTrigger : Bool
  layer : String
  tags : List String
deriving DecidableEq, Repr

/-- The rectangle literals built inside `CollisionSystem.checkCollision`. -/
structure Rect where
  x : Rat
  y : Rat
  width : Rat
  height : Rat
deriving DecidableEq, Repr

/-- `CollisionSystem.rectIntersects(rectA, rectB)`: strict axis-aligned
box overlap test. -/
def rectIntersects (rectA rectB : Rect) : Bool :=
  decide (rectA.x < rectB.x + rectB.width) &&
  decide (rectA.x + rectA.width > rectB.x) &&
  decide (rectA.y < rectB.y + rectB.height) &&
  decide (rectA.y + rectA.height > rectB.y)

/-- The offset-adjusted box a `Transform`/`Collider` pair presents to the
collision test (the `rectA`/`rectB` literals in `checkCollision`). -/
def colliderRect (t : Transform) (c : Collider) : Rect :=
  { x := t.x + c.offsetX, y := t.y + c.offsetY,
    width := c.width, height := c.height }

/-- `CollisionSystem.checkCollision(entityA, entityB)` on the two entities'
`Transform` and `Collider` components. -/
def checkCollision (tA : Transform) (cA : Collider)
    (tB : Transform) (cB : Collider) : Bool :=
  rectIntersects (colliderRect tA cA) (colliderRect tB cB)

/-- Claim C7: two entities collide iff their offset-adjusted axis-aligned
boxes overlap with strict inequality on all four edges; boxes that merely
touch on an edge (here: A's right edge equals B's left edge) do not
collide. -/
theorem claim_C7 (tA : Transform) (cA : Collider)
    (tB : Transform) (cB : Collider) :
    (checkCollision tA cA tB cB = true ↔
      (tA.x + cA.offsetX < tB.x + cB.offsetX + cB.width ∧
       tA.x + cA.offsetX + cA.width > tB.x + cB.offsetX ∧
       tA.y + cA.offsetY < tB.y + cB.offsetY + cB.height ∧
       tA.y + cA.offsetY + cA.height > tB.y + cB.offsetY)) ∧
    (tA.x + cA.offsetX + cA.width = tB.x + cB.offsetX →
      checkCollision tA cA tB cB = false) := by
  constructor
  · simp [checkCollision, rectIntersects, colliderRect, and_assoc]
  · intro htouch
    simp only [checkCollision, rectIntersects, colliderRect]
    have : ¬ (tA.x + cA.offsetX + cA.width > tB.x + cB.offsetX) := by
      rw [htouch]; exact lt_irrefl _
    simp [this]

/-- Witness for C7: two concrete boxes that exactly touch on an edge are
reported as not colliding. -/
theorem claim_C7_witness :
    checkCollision
      { x := 0, y := 0, width := 10, height := 10, rotation := 0,
        scale := 1, previousX := 0, previousY := 0 }
      { width := 10, height := 10, offsetX := 0, offsetY := 0,
        isTrigger := false, layer := "default", tags := [] }
      { x := 10, y := 0, width := 10, height := 10, rotation := 0,
        scale := 1, previousX := 10, previousY := 0 }
      { width := 10, height := 10, offsetX := 0, offsetY := 0,
        isTrigger := false, layer := "default", tags := [] } = false :=
  (claim_C7 _ _ _ _).2 (by norm_num)

/-- One achievement registry entry (the object literals in
`AchievementSystem.initializeAchievements`). -/
structure Achievement where
  name : String
  description : String
  icon : String
  unlocked : Bool
deriving DecidableEq, Repr

/-- State of the `AchievementSystem`: the string-keyed achievement
registry (a JS object, modelled as an association list with unique keys),
the unlocked-id set, and logs of the side effects (number of
`saveProgress` persistence writes, notification popups shown, sounds
played). -/
structure AchievementSystem where
  achievements : List (String × Achievement)
  unlockedAchievements : List String
  saves : Nat
  notifications : List String
  sounds : List String
deriving DecidableEq, Repr

/-- Lookup `this.achievements[achievementId]` in the registry object. -/
def lookupAch : List (String × Achievement) → String → Option Achievement
  | [], _ => none
  | (k, a) :: rest, aid => if k = aid then some a else lookupAch rest aid

/-- Mutation `achievement.unlocked = true` on the registry entry for the
given id (a JS object has a single entry per key). -/
def setUnlocked : List (String × Achievement) → String → List (String × Achievement)
  | [], _ => []
  | (k, a) :: rest, aid =>
    if k = aid then (k, { a with unlocked := true }) :: rest
    else (k, a) :: setUnlocked rest aid

/-- `AchievementSystem.unlockAchievement(achievementId)`: returns early
when the id is unknown or already unlocked; otherwise sets the unlocked
flag, records the id, shows a notification, saves progress and plays the
achievement sound. -/
def unlockAchievement (s : AchievementSystem) (aid : String) : AchievementSystem :=
  match lookupAch s.achievements aid with
  | none => s
  | some a =>
    if a.unlocked then s
    else
      { s with
        achievements := setUnlocked s.achievements aid,
        unlockedAchievements := s.unlockedAchievements ++ [aid],
        notifications := s.notifications ++ [a.name],
        saves := s.saves + 1,
        sounds := s.sounds ++ ["achievement"] }

/-- `AchievementSystem.checkAchievement(achievementId, condition)`: calls
`unlockAchievement` when the condition holds and
`this.achievements[achievementId]?.unlocked` is falsy (absent id gives
`undefined`, which is falsy). -/
def checkAchievement (s : AchievementSystem) (aid : String) (condition : Bool) :
    AchievementSystem :=
  if condition && !((lookupAch s.achievements aid).elim false (fun a => a.unlocked)) then
    unlockAchievement s aid
  else s

/-- Reading `this.achievements[achievementId]?.unlocked` as a boolean. -/
def isUnlocked (s : AchievementSystem) (aid : String) : Bool :=
  (lookupAch s.achievements aid).elim false (fun a => a.unlocked)

/-- After `setUnlocked`, looking up the same id yields the original entry
with the unlocked flag set. -/
theorem lookupAch_setUnlocked (l : List (String × Achievement)) (aid : String) :
    lookupAch (setUnlocked l aid) aid =
      (lookupAch l aid).map (fun a => { a with unlocked := true }) := by
  induction l with
  | nil => rfl
  | cons p rest ih =>
    obtain ⟨k, a⟩ := p
    by_cases hk : k = aid
    · simp [setUnlocked, lookupAch, hk]
    · simp [setUnlocked, lookupAch, hk, ih]

/-- Claim C8: `checkAchievement(id, condition)` performs the
locked-to-unlocked transition exactly when the condition holds, the id
exists in the registry, and it is not already unlocked; for an
already-unlocked id it is the identity on the whole state, so no
persistence write, notification or sound side effect is triggered; and a
fresh unlock performs exactly one persistence write and one notification. -/
theorem claim_C8 (s : AchievementSystem) (aid : String) (c : Bool) :
    ((isUnlocked (checkAchievement s aid c) aid = true ∧ isUnlocked s aid = false) ↔
      (c = true ∧ (lookupAch s.achievements aid).isSome = true ∧
        isUnlocked s aid = false)) ∧
    (isUnlocked s aid = true → checkAchievement s aid c = s) ∧
    (∀ a, c = true → lookupAch s.achievements aid = some a → a.unlocked = false →
      (checkAchievement s aid c).saves = s.saves + 1 ∧
      (checkAchievement s aid c).notifications = s.notifications ++ [a.name] ∧
      isUnlocked (checkAchievement s aid c) aid = true) := by
  refine ⟨?_, ?_, ?_⟩
  · cases hl : lookupAch s.achievements aid with
    | none =>
      simp [checkAchievement, unlockAchievement, isUnlocked, hl]
    | some a =>
      cases ha : a.unlocked with
      | true => simp [checkAchievement, unlockAchievement, isUnlocked, hl, ha]
      | false =>
        cases c with
        | false => simp [checkAchievement, isUnlocked, hl, ha]
        | true =>
          simp [checkAchievement, unlockAchievement, isUnlocked, hl, ha,
            lookupAch_setUnlocked]
  · intro hu
    have hl : ∃ a, lookupAch s.achievements aid = some a ∧ a.unlocked = true := by
      cases hl : lookupAch s.achievements aid with
      | none => simp [isUnlocked, hl] at hu
      | some a => exact ⟨a, rfl, by simpa [isUnlocked, hl] using hu⟩
    obtain ⟨a, hl, ha⟩ := hl
    simp [checkAchievement, hl, ha]
  · intro a hc hl ha
    simp [checkAchievement, unlockAchievement, isUnlocked, hc, hl, ha,
      lookupAch_setUnlocked]

/-- Witness for C8: re-checking an already-unlocked achievement id leaves
the whole system state (including side-effect logs) unchanged. -/
theorem claim_C8_witness :
    checkAchievement
      { achievements := [("first_wall", ⟨"wall", "paint one wall", "a", true⟩),
                         ("artist", ⟨"artist", "paint ten walls", "b", false⟩)],
        unlockedAchievements := ["first_wall"], saves := 1,
        notifications := ["wall"], sounds := ["achievement"] }
      "first_wall" true =
      { achievements := [("first_wall", ⟨"wall", "paint one wall", "a", true⟩),
                         ("artist", ⟨"artist", "paint ten walls", "b", false⟩)],
        unlockedAchievements := ["first_wall"], saves := 1,
        notifications := ["wall"], sounds := ["achievement"] } :=
  (claim_C8 _ "first_wall" true).2.1 (by decide)

/-- The transient per-frame action flags of the player (the nested
`actions` object of `PlayerController`). -/
structure PlayerActions where
  jump : Bool
  duck : Bool
  spray : Bool
deriving DecidableEq, Repr

/-- PlayerController component (class `PlayerController`). -/
structure PlayerController where
  jumpForce : Rat
  moveSpeed : Rat
  isJumping : Bool
  isDucking : Bool
  isSpraying : Bool
  sprayPower : Rat
  maxSprayPower : Rat
  sprayRegenRate : Rat
  actions : PlayerActions
deriving DecidableEq, Repr

/-- Collectible component (class `Collectible`): kind, score value and the
one-shot collected latch. The purely cosmetic float animation fields
(`floatOffset` is seeded by `Math.random`) are not part of the model. -/
structure Collectible where
  type : String
  value : Rat
  collected : Bool
deriving DecidableEq, Repr

/-- `ChromaticRush.addScore(points)`: the game score grows by
`Math.floor(points * this.gameSpeed)`. -/
def addScore (score : Int) (gameSpeed : Rat) (points : Rat) : Int :=
  score + ⌊points * gameSpeed⌋

/-- The state read and written by
`CollisionSystem.handlePlayerCollectibleCollision`: the player's
`PlayerController` and `Health` components (possibly absent), the
collectible's component and its entity's destroy flag, the game score and
speed, and the sound log. -/
structure CollectibleHit where
  controller : Option PlayerController
  health : Option Health
  collectible : Collectible
  entityDestroy : Bool
  score : Int
  gameSpeed : Rat
  sounds : List String
deriving DecidableEq, Repr

/-- `CollisionSystem.handlePlayerCollectibleCollision(player, collectible)`:
guarded by the `collected` latch; sets the latch, adds the collectible's
value to the score, applies the kind-specific effect (`spray_can` refills
spray power by 25 clamped at the maximum; `power_up` grants 3 seconds of
invulnerability and plays a sound; `coin` and unknown kinds play the
collect sound), and finally marks the collectible entity for
destruction. The randomized collect particle effect and the UI update are
external side effects outside the model. -/
def handlePlayerCollectibleCollision (s : CollectibleHit) : CollectibleHit :=
  if s.collectible.collected then s
  else
    let s1 := { s with collectible := { s.collectible with collected := true } }
    let s2 := { s1 with score := addScore s1.score s1.gameSpeed s1.collectible.value }
    let s3 :=
      if s2.collectible.type = "spray_can" then
        match s2.controller with
        | some pc =>
          let pc' := { pc with sprayPower := Min.min pc.maxSprayPower (pc.sprayPower + 25) }
          { s2 with controller := some pc' }
        | none => s2
      else if s2.collectible.type = "power_up" then
        match s2.health with
        | some hl =>
          { s2 with
            health := some { hl with invulnerable := true, invulnerabilityTime := 3 },
            sounds := s2.sounds ++ ["powerup"] }
        | none => { s2 with sounds := s2.sounds ++ ["powerup"] }
      else { s2 with sounds := s2.sounds ++ ["collect"] }
    { s3 with entityDestroy := true }

/-- Claim C4 (amended): picking up an uncollected `spray_can` with
`sprayPower = 50`, `maxSprayPower = 100` refills spray power to 75, sets
the collected latch, marks the collectible entity for destruction, and
increases the score by `Math.floor(value * gameSpeed)` — which equals the
collectible's value exactly when `gameSpeed = 1`. -/
theorem claim_C4 (s : CollectibleHit) (pc : PlayerController)
    (hctrl : s.controller = some pc)
    (hsp : pc.sprayPower = 50) (hmx : pc.maxSprayPower = 100)
    (htype : s.collectible.type = "spray_can")
    (hcol : s.collectible.collected = false) :
    (handlePlayerCollectibleCollision s).controller =
      some { pc with sprayPower := 75 } ∧
    (handlePlayerCollectibleCollision s).collectible.collected = true ∧
    (handlePlayerCollectibleCollision s).entityDestroy = true ∧
    (handlePlayerCollectibleCollision s).score =
      s.score + ⌊s.collectible.value * s.gameSpeed⌋ ∧
    (s.gameSpeed = 1 → (handlePlayerCollectibleCollision s).score =
      s.score + ⌊s.collectible.value⌋) := by
  have hmin : Min.min pc.maxSprayPower (pc.sprayPower + 25) = 75 := by
    rw [hsp, hmx]; norm_num
  refine ⟨?_, ?_, ?_, ?_, ?_⟩ <;>
    simp [handlePlayerCollectibleCollision, addScore, hcol, htype, hctrl, hmin]
  intro hgs
  rw [hgs, mul_one]

/-- Witness for C4 at a concrete pickup state with `gameSpeed = 1`. -/
theorem claim_C4_witness :
    (handlePlayerCollectibleCollision
      { controller := some
          { jumpForce := 400, moveSpeed := 250, isJumping := false,
            isDucking := false, isSpraying := false, sprayPower := 50,
            maxSprayPower := 100, sprayRegenRate := 20,
            actions := ⟨false, false, false⟩ },
        health := none,
        collectible := { type := "spray_can", value := 25, collected := false },
        entityDestroy := false, score := 0, gameSpeed := 1,
        sounds := [] }).controller =
      some { jumpForce := 400, moveSpeed := 250, isJumping := false,
             isDucking := false, isSpraying := false, sprayPower := 75,
             maxSprayPower := 100, sprayRegenRate := 20,
             actions := ⟨false, false, false⟩ } :=
  (claim_C4 _ _ rfl (by norm_num) (by norm_num) rfl rfl).1

/-- Counterexample to C4 as stated: at `gameSpeed = 3/2` the same pickup
(uncollected `spray_can` of value 25, `sprayPower = 50`,
`maxSprayPower = 100`) increases the score from 0 to 37, not by the
collectible's value 25. -/
theorem claim_C4_counterexample :
    (handlePlayerCollectibleCollision
      { controller := some
          { jumpForce := 400, moveSpeed := 250, isJumping := false,
            isDucking := false, isSpraying := false, sprayPower := 50,
            maxSprayPower := 100, sprayRegenRate := 20,
            actions := ⟨false, false, false⟩ },
        health := none,
        collectible := { type := "spray_can", value := 25, collected := false },
        entityDestroy := false, score := 0, gameSpeed := 3/2,
        sounds := [] }).score = 37 ∧ (37 : Int) ≠ 0 + 25 := by
  constructor
  · have h1 : (25 : Rat) * (3/2) = 75/2 := by norm_num
    have h2 : ⌊(75/2 : Rat)⌋ = (37 : Int) := by
      rw [Int.floor_eq_iff]
      constructor <;> norm_num
    simp [handlePlayerCollectibleCollision, addScore, h1, h2]
  · decide

/-- Sprite component (class `Sprite`): visual kind, current frame id,
render layer, visibility, opacity, flips and optional tint. -/
structure Sprite where
  type : String
  frame : String
  layer : Nat
  visible : Bool
  opacity : Rat
  flipX : Bool
  flipY : Bool
  tint : Option String
deriving DecidableEq, Repr

/-- StreetArt component (class `StreetArt`): one-shot painted latch, paint
progress and the required-paint threshold. The cosmetic fields
(`artStyle`, color palettes) are not read by the verified handler. -/
structure StreetArt where
  painted : Bool
  paintProgress : Rat
  requiredPaint : Rat
deriving DecidableEq, Repr

/-- The state read and written by
`CollisionSystem.handlePlayerStreetArtCollision`: the player's
`PlayerController` (possibly absent), the street-art entity's `StreetArt`
and `Sprite` components, the game score, speed and painted-wall counter,
the achievement system, and the sound log. -/
structure StreetArtHit where
  controller : Option PlayerController
  art : StreetArt
  sprite : Option Sprite
  score : Int
  gameSpeed : Rat
  wallsPainted : Nat
  achievements : AchievementSystem
  sounds : List String
deriving DecidableEq, Repr

/-- `CollisionSystem.handlePlayerStreetArtCollision(player, streetart)`:
while the player's spray action flag is set, the art is unpainted and
spray power is positive, paint progress accrues at 50 units/sec scaled by
`deltaTime` and spray power drains by half of that (clamped at 0);
crossing the required-paint threshold sets the painted latch, awards 100
points through `addScore`, increments the painted-wall counter, runs the
two achievement checks, plays the achievement sound and swaps the sprite
frame to the colored variant. The randomized spray particle effect and
the UI update are external side effects outside the model. -/
def handlePlayerStreetArtCollision (deltaTime : Rat) (s : StreetArtHit) :
    StreetArtHit :=
  match s.controller with
  | none => s
  | some pc =>
    if pc.actions.spray && !s.art.painted && decide (pc.sprayPower > 0) then
      let sprayRate : Rat := 50
      let deltaSpray := sprayRate * deltaTime
      let art1 : StreetArt := { s.art with paintProgress := s.art.paintProgress + deltaSpray }
      let pc1 : PlayerController := { pc with sprayPower := Max.max 0 (pc.sprayPower - deltaSpray / 2) }
      let t : StreetArtHit := { s with controller := some pc1, art := art1 }
      if decide (art1.paintProgress ≥ art1.requiredPaint) && !art1.painted then
        let art2 := { art1 with painted := true }
        let score1 := addScore t.score t.gameSpeed 100
        let wp1 : Nat := t.wallsPainted + 1
        let ach1 := checkAchievement
          (checkAchievement t.achievements "first_wall" (decide (wp1 ≥ 1)))
          "artist" (decide (wp1 ≥ 10))
        let sounds1 := t.sounds ++ ["achievement"]
        let sprite1 :=
          match t.sprite with
          | some sp =>
            if sp.type = "building1" then some { sp with frame := "colored_building1" }
            else if sp.type = "building2" then some { sp with frame := "colored_building2" }
            else some sp
          | none => none
        { t with art := art2, score := score1, wallsPainted := wp1,
                 achievements := ach1, sounds := sounds1, sprite := sprite1 }
      else t
    else s

/-- Claim C5: paint progress changes only while the spray flag is set,
spray power is positive and the art is unpainted (in particular a painted
art is never touched again: the handler is the identity, so no score,
counter, achievement or sound effect re-fires); under those conditions
progress accrues by `50 * dt`, spray power drains by half that (clamped at
0), and the painted latch is set exactly when the new progress reaches the
threshold, which awards the score and side effects exactly on that
crossing tick. -/
theorem claim_C5 (dt : Rat) (s : StreetArtHit) (pc : PlayerController) :
    (s.controller = none → handlePlayerStreetArtCollision dt s = s) ∧
    (s.art.painted = true → handlePlayerStreetArtCollision dt s = s) ∧
    (s.controller = some pc → pc.actions.spray = false →
      handlePlayerStreetArtCollision dt s = s) ∧
    (s.controller = some pc → ¬(pc.sprayPower > 0) →
      handlePlayerStreetArtCollision dt s = s) ∧
    (s.controller = some pc → pc.actions.spray = true → s.art.painted = false →
      pc.sprayPower > 0 →
      (handlePlayerStreetArtCollision dt s).art.paintProgress =
        s.art.paintProgress + 50 * dt ∧
      (handlePlayerStreetArtCollision dt s).controller =
        some { pc with sprayPower := Max.max 0 (pc.sprayPower - 50 * dt / 2) } ∧
      ((handlePlayerStreetArtCollision dt s).art.painted = true ↔
        s.art.paintProgress + 50 * dt ≥ s.art.requiredPaint) ∧
      (¬(s.art.paintProgress + 50 * dt ≥ s.art.requiredPaint) →
        (handlePlayerStreetArtCollision dt s).score = s.score ∧
        (handlePlayerStreetArtCollision dt s).wallsPainted = s.wallsPainted ∧
        (handlePlayerStreetArtCollision dt s).sounds = s.sounds ∧
        (handlePlayerStreetArtCollision dt s).achievements = s.achievements) ∧
      (s.art.paintProgress + 50 * dt ≥ s.art.requiredPaint →
        (handlePlayerStreetArtCollision dt s).score =
          s.score + ⌊(100 : Rat) * s.gameSpeed⌋ ∧
        (handlePlayerStreetArtCollision dt s).wallsPainted = s.wallsPainted + 1 ∧
        (handlePlayerStreetArtCollision dt s).sounds = s.sounds ++ ["achievement"])) := by
  refine ⟨?_, ?_, ?_, ?_, ?_⟩
  · intro hc
    simp [handlePlayerStreetArtCollision, hc]
  · intro hp
    cases hc : s.controller with
    | none => simp [handlePlayerStreetArtCollision, hc]
    | some pc0 => simp [handlePlayerStreetArtCollision, hc, hp]
  · intro hc hspray
    simp [handlePlayerStreetArtCollision, hc, hspray]
  · intro hc hpow
    simp [handlePlayerStreetArtCollision, hc, hpow]
  · intro hc hspray hp hpow
    by_cases hth : s.art.paintProgress + 50 * dt ≥ s.art.requiredPaint
    · refine ⟨?_, ?_, ?_, ?_, ?_⟩ <;>
        simp [handlePlayerStreetArtCollision, hc, hspray, hpow, hth, hp, addScore]
    · refine ⟨?_, ?_, ?_, ?_, ?_⟩ <;>
        simp [handlePlayerStreetArtCollision, hc, hspray, hpow, hth, hp]

/-- Witness for C5 at a concrete spraying tick that crosses the
required-paint threshold. -/
theorem claim_C5_witness :
    (handlePlayerStreetArtCollision (1/10)
      { controller := some
          { jumpForce := 400, moveSpeed := 250, isJumping := false,
            isDucking := false, isSpraying := true, sprayPower := 60,
            maxSprayPower := 100, sprayRegenRate := 20,
            actions := ⟨false, false, true⟩ },
        art := { painted := false, paintProgress := 96, requiredPaint := 100 },
        sprite := none, score := 0, gameSpeed := 1, wallsPainted := 0,
        achievements := { achievements := [], unlockedAchievements := [],
                          saves := 0, notifications := [], sounds := [] },
        sounds := [] }).art.paintProgress = 96 + 50 * (1/10) :=
  ((claim_C5 (1/10) _
      { jumpForce := 400, moveSpeed := 250, isJumping := false,
        isDucking := false, isSpraying := true, sprayPower := 60,
        maxSprayPower := 100, sprayRegenRate := 20,
        actions := ⟨false, false, true⟩ }).2.2.2.2
    rfl rfl rfl (by norm_num)).1

/-- Velocity component (class `Velocity`): velocity, per-axis caps,
friction coefficient and gravity scale. -/
structure Velocity where
  vx : Rat
  vy : Rat
  maxVx : Rat
  maxVy : Rat
  friction : Rat
  gravity : Rat
deriving DecidableEq, Repr

/-- Physics component (class `Physics`). The canvas y axis grows
downward: gravity adds a positive amount to `vy`, a jump sets
`vy = -jumpForce`, and the ground line lies below the entity. -/
structure Physics where
  static : Bool
  bounce : Rat
  mass : Rat
  grounded : Bool
  onGround : Bool
  groundY : Rat
deriving DecidableEq, Repr

/-- An entity as seen by the physics sweep: its `Transform`, `Velocity`
and `Physics` components. -/
structure PhysEntity where
  transform : Transform
  velocity : Velocity
  physics : Physics
deriving DecidableEq, Repr

/-- The ground-collision tail of `PhysicsSystem.update` (the part after
integration): if the entity's bottom edge penetrates the ground line its
position is clamped onto the line, and a falling entity (`vy > 0`,
downward) has `vy` reflected by the bounce coefficient and the
grounded/onGround flags set; otherwise `onGround` is cleared and
`grounded` is cleared exactly when `vy > 50`. The cosmetic landing
effect and sound for the player entity are external side effects outside
the model. The preceding gravity/friction/clamp/integration lines of
`PhysicsSystem.update` are not needed by the claim about this branch. -/
def groundStep (groundY : Rat) (e : PhysEntity) : PhysEntity :=
  let t := e.transform
  let v := e.velocity
  let p := e.physics
  if t.y + t.height > groundY then
    let t1 : Transform := { t with y := groundY - t.height }
    if v.vy > 0 then
      { transform := t1,
        velocity := { v with vy := -v.vy * p.bounce },
        physics := { p with onGround := true, grounded := true, groundY := groundY } }
    else { e with transform := t1 }
  else
    if p.grounded && decide (v.vy > 50) then
      { e with physics := { p with onGround := false, grounded := false } }
    else
      { e with physics := { p with onGround := false } }

/-- Claim C6 (amended): for a non-ground-penetrating entity that is
currently grounded, the grounded flag is cleared exactly when `vy > 50` —
in this engine's y-down coordinates a *downward* velocity above 50
units/s (i.e. falling away from the grounded state), not an upward one;
otherwise `grounded` stays true. -/
theorem claim_C6 (groundY : Rat) (e : PhysEntity)
    (hnp : ¬(e.transform.y + e.transform.height > groundY))
    (hg : e.physics.grounded = true) :
    ((groundStep groundY e).physics.grounded = false ↔ e.velocity.vy > 50) ∧
    (¬(e.velocity.vy > 50) → (groundStep groundY e).physics.grounded = true) := by
  constructor
  · by_cases hv : e.velocity.vy > 50
    · simp [groundStep, hnp, hg, hv]
    · simp [groundStep, hnp, hg, hv]
  · intro hv
    simp [groundStep, hnp, hg, hv]

/-- Witness for C6: a grounded entity resting above the ground line with
a small downward velocity keeps its grounded flag. -/
theorem claim_C6_witness :
    (groundStep 450
      { transform := { x := 0, y := 300, width := 32, height := 32,
                       rotation := 0, scale := 1, previousX := 0, previousY := 300 },
        velocity := { vx := 0, vy := 10, maxVx := 500, maxVy := 800,
                      friction := 85/100, gravity := 800 },
        physics := { static := false, bounce := 0, mass := 1, grounded := true,
                     onGround := true, groundY := 450 } }).physics.grounded = true :=
  (claim_C6 450 _ (by norm_num) rfl).2 (by norm_num)

/-- Counterexample to C6 as stated: a grounded, non-penetrating entity
moving *downward* at `vy = 100` (positive vy is downward in this engine:
gravity adds to `vy` and jumping sets `vy = -jumpForce`) has its grounded
flag cleared, although it is not moving upward at all — the claim's
reading that only an upward velocity beyond the threshold clears the flag
is inverted. -/
theorem claim_C6_counterexample :
    (groundStep 450
      { transform := { x := 0, y := 300, width := 32, height := 32,
                       rotation := 0, scale := 1, previousX := 0, previousY := 300 },
        velocity := { vx := 0, vy := 100, maxVx := 500, maxVy := 800,
                      friction := 85/100, gravity := 800 },
        physics := { static := false, bounce := 0, mass := 1, grounded := true,
                     onGround := true, groundY := 450 } }).physics.grounded = false ∧
    ¬((100 : Rat) < 0) := by
  constructor
  · simp [groundStep]
    norm_num
  · norm_num

/-- A guard-behavior AI entity as seen by `AISystem.updateGuardAI`: its
transform position, horizontal velocity, the `AIController` state fields
(state label, timer, optional target point) and the free-form `config`
entries the guard code reads (`range`, `alertRange`, `speed`, `startX`),
each possibly absent. -/
structure GuardAI where
  x : Rat
  y : Rat
  vx : Rat
  state : String
  timer : Rat
  target : Option (Rat × Rat)
  range : Option Rat
  alertRange : Option Rat
  speed : Option Rat
  startX : Option Rat
deriving DecidableEq, Repr

/-- JavaScript `value || fallback` on a possibly-absent number: both
`undefined` and `0` are falsy and select the fallback. -/
def jsOr (v : Option Rat) (fallback : Rat) : Rat :=
  match v with
  | none => fallback
  | some x => if x = 0 then fallback else x

/-- `AISystem.updateGuardAI(entity, ai, transform, velocity, deltaTime)`:
the guard finite-state machine over states idle/alert/pursuing/returning,
driven by the horizontal distance `|x - playerX|` to the player. The
function returns early when `this.game.player` is absent (`playerX =
none`). The per-tick `ai.timer += deltaTime` accumulation happens in the
caller (`AISystem.update`) before dispatch and is not part of this
function. -/
def updateGuardAI (g : GuardAI) (playerX : Option Rat) : GuardAI :=
  match playerX with
  | none => g
  | some px =>
    let guardRange := jsOr g.range 150
    let alertRange := jsOr g.alertRange 100
    let distance := |g.x - px|
    if g.state = "idle" then
      if distance < alertRange then { g with state := "alert", timer := 0 } else g
    else if g.state = "alert" then
      if g.timer > 1 then
        if distance < guardRange then { g with state := "pursuing", timer := 0 }
        else { g with state := "idle", timer := 0 }
      else g
    else if g.state = "pursuing" then
      let pursuitSpeed := jsOr g.speed 120
      let direction : Rat := if g.x < px then 1 else -1
      let g1 : GuardAI := { g with vx := pursuitSpeed * direction }
      if distance > guardRange * (3/2) then
        { g1 with state := "returning", target := some (jsOr g.startX g.x, g.y) }
      else g1
    else if g.state = "returning" then
      match g.target with
      | some t =>
        let returnSpeed := jsOr g.speed 80
        let directionToStart : Rat := if g.x < t.1 then 1 else -1
        let g1 : GuardAI := { g with vx := returnSpeed * directionToStart }
        if |g.x - t.1| < 10 then
          { g1 with state := "idle", target := none, vx := 0 }
        else g1
      | none => g
    else g

/-- Claim C9: a pursuing guard switches to returning exactly when its
horizontal distance to the player exceeds 1.5 times the guard radius,
capturing its configured spawn x (`config.startX`, here assumed present
and nonzero, as set by `spawnMovingObstacle`) as the return target; a
returning guard moves toward that target and switches to idle exactly
when within 10 units of it, clearing the target and zeroing its
horizontal velocity. -/
theorem claim_C9 (g : GuardAI) (px sx tx ty : Rat) :
    (g.state = "pursuing" → g.startX = some sx → sx ≠ 0 →
      |g.x - px| > jsOr g.range 150 * (3/2) →
      (updateGuardAI g (some px)).state = "returning" ∧
      (updateGuardAI g (some px)).target = some (sx, g.y)) ∧
    (g.state = "pursuing" → ¬(|g.x - px| > jsOr g.range 150 * (3/2)) →
      (updateGuardAI g (some px)).state = "pursuing" ∧
      (updateGuardAI g (some px)).target = g.target ∧
      (updateGuardAI g (some px)).vx =
        jsOr g.speed 120 * (if g.x < px then 1 else -1)) ∧
    (g.state = "returning" → g.target = some (tx, ty) → |g.x - tx| < 10 →
      (updateGuardAI g (some px)).state = "idle" ∧
      (updateGuardAI g (some px)).target = none ∧
      (updateGuardAI g (some px)).vx = 0) ∧
    (g.state = "returning" → g.target = some (tx, ty) → ¬(|g.x - tx| < 10) →
      (updateGuardAI g (some px)).state = "returning" ∧
      (updateGuardAI g (some px)).vx =
        jsOr g.speed 80 * (if g.x < tx then 1 else -1)) := by
  refine ⟨?_, ?_, ?_, ?_⟩
  · intro hs hsx hnz hdist
    have hjs : jsOr g.startX g.x = sx := by simp [jsOr, hsx, hnz]
    constructor <;> simp [updateGuardAI, hs, hdist, hjs]
  · intro hs hdist
    refine ⟨?_, ?_, ?_⟩ <;> simp [updateGuardAI, hs, hdist]
  · intro hs ht hdist
    refine ⟨?_, ?_, ?_⟩ <;> simp [updateGuardAI, hs, ht, hdist]
  · intro hs ht hdist
    constructor <;> simp [updateGuardAI, hs, ht, hdist]

/-- Witness for C9: a concrete pursuing guard whose distance to the
player exceeds 1.5 times its configured radius switches to returning and
captures its spawn x as the target. -/
theorem claim_C9_witness :
    (updateGuardAI
      { x := 700, y := 200, vx := 120, state := "pursuing", timer := 2,
        target := none, range := some 150, alertRange := none,
        speed := some 80, startX := some 700 }
      (some 1000)).state = "returning" ∧
    (updateGuardAI
      { x := 700, y := 200, vx := 120, state := "pursuing", timer := 2,
        target := none, range := some 150, alertRange := none,
        speed := some 80, startX := some 700 }
      (some 1000)).target = some (700, 200) :=
  (claim_C9 _ 1000 700 0 0).1 rfl rfl (by norm_num)
    (by simp [jsOr]; norm_num)

/-- An entity (class `Entity`): identity, the keyed set of components
(keyed by component class name; at most one component per kind, so only
the key set matters to the manager), the tag set, the `active` flag and
the `destroy` flag (the spec's `pendingDestroy`). -/
structure Entity where
  id : Nat
  componentKinds : List String
  tags : List String
  active : Bool
  destroy : Bool
deriving DecidableEq, Repr

/-- `Entity.hasComponent(componentClass)`: membership of the class name in
the entity's component map. -/
def Entity.hasComponent (e : Entity) (c : String) : Bool :=
  e.componentKinds.contains c

/-- State of the `EntityManager`: the primary store (a JS `Map` keyed by
entity id, modelled as an insertion-ordered association list with unique
ids), the tag index, and the two staging buffers. -/
structure EntityManager where
  entities : List Entity
  entitiesByTag : List (String × List Entity)
  entitiesToAdd : List Entity
  entitiesToRemove : List Entity
deriving DecidableEq, Repr

/-- `EntityManager.addEntity(entity)`: stages the entity for insertion. -/
def EntityManager.addEntity (m : EntityManager) (e : Entity) : EntityManager :=
  { m with entitiesToAdd := m.entitiesToAdd ++ [e] }

/-- `EntityManager.removeEntity(entity)`: stages the entity for removal. -/
def EntityManager.removeEntity (m : EntityManager) (e : Entity) : EntityManager :=
  { m with entitiesToRemove := m.entitiesToRemove ++ [e] }

/-- `EntityManager.getEntitiesWith(...componentClasses)`: every stored
entity that is active, not marked destroy, and has all requested
component kinds, in store order. -/
def EntityManager.getEntitiesWith (m : EntityManager) (kinds : List String) :
    List Entity :=
  m.entities.filter (fun e =>
    e.active && !e.destroy && kinds.all (fun c => e.hasComponent c))

/-- `this.entities.set(entity.id, entity)` on the primary store: a JS
`Map.set` replaces the entry with that key in place, else appends. -/
def mapSet (store : List Entity) (e : Entity) : List Entity :=
  if store.any (fun x => x.id == e.id) then
    store.map (fun x => if x.id == e.id then e else x)
  else store ++ [e]

/-- Pushing an entity into the tag index bucket for one tag, creating the
bucket when absent (`if (!map.has(tag)) map.set(tag, []); get(tag).push`). -/
def tagPush : List (String × List Entity) → String → Entity →
    List (String × List Entity)
  | [], t, e => [(t, [e])]
  | (s, b) :: rest, t, e =>
    if s = t then (s, b ++ [e]) :: rest else (s, b) :: tagPush rest t e

/-- Indexing all of one entity's tags (`for (const tag of entity.tags)`). -/
def indexTags (idx : List (String × List Entity)) (e : Entity) :
    List (String × List Entity) :=
  e.tags.foldl (fun i t => tagPush i t e) idx

/-- `this.entitiesByTag.get(tag) || []`: the bucket for a tag, empty when
the tag is unindexed. -/
def lookupBucket : List (String × List Entity) → String → List Entity
  | [], _ => []
  | (s, b) :: rest, t => if s = t then b else lookupBucket rest t

/-- `EntityManager.getEntitiesByTag(tag)`. -/
def EntityManager.getEntitiesByTag (m : EntityManager) (t : String) : List Entity :=
  lookupBucket m.entitiesByTag t

/-- Splicing the removed entity out of one tag bucket. The JS code removes
the unique occurrence of the entity object (`indexOf`/`splice`); with
unique ids this is the entries with the removed id. -/
def tagRemoveOne : List (String × List Entity) → String → Nat →
    List (String × List Entity)
  | [], _, _ => []
  | (s, b) :: rest, t, rid =>
    if s = t then (s, b.filter (fun x => !(x.id == rid))) :: rest
    else (s, b) :: tagRemoveOne rest t rid

/-- Removing one entity from the buckets of all of its tags. -/
def tagRemoveAll (idx : List (String × List Entity)) (r : Entity) :
    List (String × List Entity) :=
  r.tags.foldl (fun i t => tagRemoveOne i t r.id) idx

/-- `EntityManager.update()` (the flush): (1) move every staged addition
into the primary store and index its tags, clearing the add buffer;
(2) append every stored entity whose destroy flag is set to the removal
list; (3) remove every listed entity from the store (a `Map.delete` by
id) and from the buckets of its tags, clearing the removal buffer. -/
def EntityManager.update (m : EntityManager) : EntityManager :=
  let store1 := m.entitiesToAdd.foldl mapSet m.entities
  let idx1 := m.entitiesToAdd.foldl indexTags m.entitiesByTag
  let rems := m.entitiesToRemove ++ store1.filter (fun e => e.destroy)
  let store2 := rems.foldl (fun s r => s.filter (fun x => !(x.id == r.id))) store1
  let idx2 := rems.foldl tagRemoveAll idx1
  { entities := store2, entitiesByTag := idx2,
    entitiesToAdd := [], entitiesToRemove := [] }

/-- Well-formedness of a manager state as the JS runtime maintains it: the
primary store is a `Map` (unique ids) and the staged additions carry fresh
unique ids. -/
def EMWF (m : EntityManager) : Prop :=
  ((m.entities ++ m.entitiesToAdd).map (fun e => e.id)).Nodup

instance (m : EntityManager) : Decidable (EMWF m) := by
  unfold EMWF; infer_instance

/-- Composing two filters is filtering by the conjunction. -/
theorem filter_and_comp {α : Type} (l : List α) (p q : α → Bool) :
    (l.filter p).filter q = l.filter (fun a => p a && q a) := by
  induction l with
  | nil => rfl
  | cons a rest ih =>
    cases hp : p a <;> cases hq : q a <;> simp [List.filter, hp, hq, ih]

/-- When every staged id is fresh, flushing the staged additions through
`Map.set` appends them to the store. -/
theorem foldl_mapSet_eq_append (store adds : List Entity)
    (h : ((store ++ adds).map (fun e => e.id)).Nodup) :
    adds.foldl mapSet store = store ++ adds := by
  induction adds generalizing store with
  | nil => simp
  | cons a rest ih =>
    have hmem : a.id ∉ store.map (fun e => e.id) := by
      rw [List.map_append] at h
      have hdisj := List.disjoint_of_nodup_append h
      intro hmema
      exact hdisj hmema (by simp)
    have hany : store.any (fun x => x.id == a.id) = false := by
      rw [Bool.eq_false_iff]
      intro hany
      obtain ⟨x, hx, hxe⟩ := List.any_eq_true.mp hany
      exact hmem (List.mem_map.mpr ⟨x, hx, beq_iff_eq.mp hxe⟩)
    have hset : mapSet store a = store ++ [a] := by
      simp [mapSet, hany]
    have h2 : (((store ++ [a]) ++ rest).map (fun e => e.id)).Nodup := by
      rw [List.append_cons] at h
      exact h
    rw [List.foldl_cons, hset, ih (store ++ [a]) h2]
    simp

/-- Folding the removal list over `Map.delete` filters the store by all
removed ids at once. -/
theorem foldl_removeFilter (rems store : List Entity) :
    rems.foldl (fun s r => s.filter (fun x => !(x.id == r.id))) store =
      store.filter (fun x => rems.all (fun r => !(x.id == r.id))) := by
  induction rems generalizing store with
  | nil => simp
  | cons r rest ih =>
    rw [List.foldl_cons, ih, filter_and_comp]
    apply List.filter_congr
    intro x _
    simp [List.all_cons]

/-- The store after `EntityManager.update`: the staged additions are
appended, then every entity with the destroy flag and every entity whose
id was staged for removal is dropped. -/
theorem update_entities_eq (m : EntityManager) (hwf : EMWF m) :
    m.update.entities = (m.entities ++ m.entitiesToAdd).filter
      (fun x => !x.destroy && m.entitiesToRemove.all (fun r => !(x.id == r.id))) := by
  unfold EntityManager.update
  simp only
  rw [foldl_mapSet_eq_append m.entities m.entitiesToAdd hwf, foldl_removeFilter]
  apply List.filter_congr
  intro x hx
  rw [List.all_append]
  cases hd : x.destroy with
  | true =>
    have hxf : x ∈ (m.entities ++ m.entitiesToAdd).filter (fun e => e.destroy) :=
      List.mem_filter.mpr ⟨hx, hd⟩
    have : ((m.entities ++ m.entitiesToAdd).filter (fun e => e.destroy)).all
        (fun r => !(x.id == r.id)) = false := by
      rw [Bool.eq_false_iff]
      intro hall
      have := List.all_eq_true.mp hall x hxf
      simp at this
    rw [this]
    simp
  | false =>
    have : ((m.entities ++ m.entitiesToAdd).filter (fun e => e.destroy)).all
        (fun r => !(x.id == r.id)) = true := by
      rw [List.all_eq_true]
      intro r hr
      obtain ⟨hrmem, hrd⟩ := List.mem_filter.mp hr
      have hne : x.id ≠ r.id := by
        intro hid
        have hxr : x = r := List.inj_on_of_nodup_map hwf hx hrmem hid
        rw [← hxr] at hrd
        rw [hd] at hrd
        exact Bool.false_ne_true hrd
      simp [hne]
    rw [this]
    simp

/-- Looking up a bucket after a `tagPush`: the pushed entity lands at the
end of the bucket of its tag, other buckets are unchanged. -/
theorem lookupBucket_tagPush (idx : List (String × List Entity))
    (t u : String) (e : Entity) :
    lookupBucket (tagPush idx t e) u =
      if u = t then lookupBucket idx u ++ [e] else lookupBucket idx u := by
  induction idx with
  | nil =>
    by_cases h : u = t
    · simp [tagPush, lookupBucket, h]
    · simp [tagPush, lookupBucket, h, Ne.symm h]
  | cons p rest ih =>
    obtain ⟨s, b⟩ := p
    by_cases hst : s = t
    · subst hst
      by_cases hsu : s = u
      · subst hsu
        simp [tagPush, lookupBucket]
      · simp [tagPush, lookupBucket, hsu, Ne.symm hsu]
    · by_cases hsu : s = u
      · subst hsu
        have hut : ¬s = t := hst
        simp [tagPush, lookupBucket, hst, hut]
      · simp [tagPush, lookupBucket, hst, hsu, ih]

/-- Bucket membership after indexing one entity under a list of tags. -/
theorem mem_foldl_tagPush (ts : List String) (idx : List (String × List Entity))
    (e x : Entity) (u : String) :
    x ∈ lookupBucket (ts.foldl (fun i t => tagPush i t e) idx) u ↔
      x ∈ lookupBucket idx u ∨ (x = e ∧ u ∈ ts) := by
  induction ts generalizing idx with
  | nil => simp
  | cons t rest ih =>
    rw [List.foldl_cons, ih, lookupBucket_tagPush]
    by_cases h : u = t
    · subst h
      rw [if_pos rfl]
      simp only [List.mem_append, List.mem_cons, List.not_mem_nil, or_false]
      tauto
    · rw [if_neg h]
      simp only [List.mem_cons]
      tauto

/-- Bucket membership after indexing all staged additions. -/
theorem mem_foldl_indexTags (adds : List Entity)
    (idx : List (String × List Entity)) (x : Entity) (u : String) :
    x ∈ lookupBucket (adds.foldl indexTags idx) u ↔
      x ∈ lookupBucket idx u ∨ (x ∈ adds ∧ u ∈ x.tags) := by
  induction adds generalizing idx with
  | nil => simp
  | cons a rest ih =>
    rw [List.foldl_cons, ih]
    unfold indexTags
    rw [mem_foldl_tagPush]
    constructor
    · rintro ((hm | ⟨rfl, hu⟩) | ⟨hmem, hu⟩)
      · exact Or.inl hm
      · exact Or.inr ⟨List.mem_cons_self _ _, hu⟩
      · exact Or.inr ⟨List.mem_cons_of_mem _ hmem, hu⟩
    · rintro (hm | ⟨hmem, hu⟩)
      · exact Or.inl (Or.inl hm)
      · rcases List.mem_cons.mp hmem with rfl | hmem
        · exact Or.inl (Or.inr ⟨rfl, hu⟩)
        · exact Or.inr ⟨hmem, hu⟩

/-- Looking up a bucket after a `tagRemoveOne`: the bucket of the removed
tag is filtered by the removed id, other buckets are unchanged. -/
theorem lookupBucket_tagRemoveOne (idx : List (String × List Entity))
    (t u : String) (rid : Nat) :
    lookupBucket (tagRemoveOne idx t rid) u =
      if u = t then (lookupBucket idx u).filter (fun x => !(x.id == rid))
      else lookupBucket idx u := by
  induction idx with
  | nil =>
    by_cases h : u = t <;> simp [tagRemoveOne, lookupBucket, h]
  | cons p rest ih =>
    obtain ⟨s, b⟩ := p
    by_cases hst : s = t
    · subst hst
      by_cases hsu : s = u
      · subst hsu
        simp [tagRemoveOne, lookupBucket]
      · simp [tagRemoveOne, lookupBucket, hsu, Ne.symm hsu]
    · by_cases hsu : s = u
      · subst hsu
        have hut : ¬s = t := hst
        simp [tagRemoveOne, lookupBucket, hst, hut]
      · simp [tagRemoveOne, lookupBucket, hst, hsu, ih]

/-- Bucket membership after removing one id from the buckets of a list of
tags. -/
theorem mem_foldl_tagRemoveOne (ts : List String)
    (idx : List (String × List Entity)) (rid : Nat) (x : Entity) (u : String) :
    x ∈ lookupBucket (ts.foldl (fun i t => tagRemoveOne i t rid) idx) u ↔
      x ∈ lookupBucket idx u ∧ (u ∈ ts → ¬(x.id = rid)) := by
  induction ts generalizing idx with
  | nil => simp
  | cons t rest ih =>
    rw [List.foldl_cons, ih, lookupBucket_tagRemoveOne]
    by_cases h : u = t
    · subst h
      rw [if_pos rfl]
      simp only [List.mem_filter, List.mem_cons, Bool.not_eq_true',
        beq_eq_false_iff_ne, ne_eq]
      tauto
    · rw [if_neg h]
      simp only [List.mem_cons]
      tauto

/-- Bucket membership after removing every listed entity from the buckets
of its tags. -/
theorem mem_foldl_tagRemoveAll (rems : List Entity)
    (idx : List (String × List Entity)) (x : Entity) (u : String) :
    x ∈ lookupBucket (rems.foldl tagRemoveAll idx) u ↔
      x ∈ lookupBucket idx u ∧ ∀ r ∈ rems, u ∈ r.tags → ¬(x.id = r.id) := by
  induction rems generalizing idx with
  | nil => simp
  | cons r rest ih =>
    rw [List.foldl_cons, ih]
    unfold tagRemoveAll
    rw [mem_foldl_tagRemoveOne]
    constructor
    · rintro ⟨⟨hm, hr⟩, hrest⟩
      refine ⟨hm, ?_⟩
      intro r' hr' hu
      rcases List.mem_cons.mp hr' with rfl | hr'
      · exact hr hu
      · exact hrest r' hr' hu
    · rintro ⟨hm, hall⟩
      exact ⟨⟨hm, hall r (List.mem_cons_self _ _)⟩,
        fun r' hr' hu => hall r' (List.mem_cons_of_mem _ hr') hu⟩

/-- Tag-index membership after `EntityManager.update`: an entity is in a
bucket iff it was there before or was staged for addition with that tag,
and no removal record (staged or destroy-flagged) with that tag carries
its id. -/
theorem mem_update_byTag (m : EntityManager) (x : Entity) (u : String) :
    x ∈ m.update.getEntitiesByTag u ↔
      (x ∈ m.getEntitiesByTag u ∨ (x ∈ m.entitiesToAdd ∧ u ∈ x.tags)) ∧
      ∀ r ∈ m.entitiesToRemove ++
          (m.entitiesToAdd.foldl mapSet m.entities).filter (fun e => e.destroy),
        u ∈ r.tags → ¬(x.id = r.id) := by
  unfold EntityManager.update EntityManager.getEntitiesByTag
  simp only
  rw [mem_foldl_tagRemoveAll, mem_foldl_indexTags]

/-- Claim C1: every entity returned by `getEntitiesWith` is active, not
marked destroy, and has every requested component kind; and when some
requested kind matches no component class (given that stored entities
only hold components of the program's component classes), the result is
the empty list — the query is a total function, never an error. -/
theorem claim_C1 (m : EntityManager) (kinds : List String) (x : Entity) (k : String) :
    (x ∈ m.getEntitiesWith kinds →
      x.active = true ∧ x.destroy = false ∧ ∀ c ∈ kinds, x.hasComponent c = true) ∧
    ((∀ e ∈ m.entities, ∀ c ∈ e.componentKinds, c ∈ knownComponentClasses) →
      k ∈ kinds → k ∉ knownComponentClasses → m.getEntitiesWith kinds = []) := by
  constructor
  · intro hx
    obtain ⟨hmem, hpred⟩ := List.mem_filter.mp hx
    simp only [Bool.and_eq_true, Bool.not_eq_true', List.all_eq_true] at hpred
    exact ⟨hpred.1.1, hpred.1.2, hpred.2⟩
  · intro hstore hk hnk
    unfold EntityManager.getEntitiesWith
    rw [List.filter_eq_nil_iff]
    intro e he hpred
    simp only [Bool.and_eq_true, List.all_eq_true] at hpred
    have hhc := hpred.2 k hk
    unfold Entity.hasComponent at hhc
    have hkin : k ∈ e.componentKinds := by
      simpa using hhc
    exact hnk (hstore e he k hkin)

/-- A sample stored entity for the manager witnesses. -/
def sampleEntityA : Entity :=
  { id := 1, componentKinds := ["Transform", "Health"], tags := ["player"],
    active := true, destroy := false }

/-- A sample stored entity already flagged for destruction. -/
def sampleEntityB : Entity :=
  { id := 2, componentKinds := ["Transform"], tags := ["obstacle"],
    active := true, destroy := true }

/-- A sample staged-for-addition entity. -/
def sampleEntityC : Entity :=
  { id := 3, componentKinds := ["Transform", "Collider"], tags := ["obstacle"],
    active := true, destroy := false }

/-- A sample manager state with a consistent tag index and one staged
addition. -/
def sampleManager : EntityManager :=
  { entities := [sampleEntityA, sampleEntityB],
    entitiesByTag := [("player", [sampleEntityA]), ("obstacle", [sampleEntityB])],
    entitiesToAdd := [sampleEntityC],
    entitiesToRemove := [] }

/-- Witness for C1: querying the sample manager for a kind that is no
component class yields the empty list. -/
theorem claim_C1_witness :
    sampleManager.getEntitiesWith ["Transform", "Bogus"] = [] :=
  (claim_C1 sampleManager ["Transform", "Bogus"] sampleEntityA "Bogus").2
    (by decide) (by decide) (by decide)

/-- Claim C2: staging an addition or a removal leaves query results
untouched until the flush; the flush first applies all staged additions
to the store (and their tags to the index), then drops every entity whose
id was staged for removal and every entity whose destroy flag is set,
both from the store and from the tag-index buckets of its tags. -/
theorem claim_C2 (m : EntityManager) (e : Entity) (kinds : List String)
    (u : String) (hwf : EMWF m) :
    ((m.addEntity e).getEntitiesWith kinds = m.getEntitiesWith kinds) ∧
    ((m.removeEntity e).getEntitiesWith kinds = m.getEntitiesWith kinds) ∧
    (m.update.entities = (m.entities ++ m.entitiesToAdd).filter
      (fun x => !x.destroy && m.entitiesToRemove.all (fun r => !(x.id == r.id)))) ∧
    (∀ a ∈ m.entitiesToAdd, u ∈ a.tags → a.destroy = false →
      (∀ r ∈ m.entitiesToRemove, a.id ≠ r.id) →
      a ∈ m.update.getEntitiesByTag u) ∧
    (∀ r ∈ m.entitiesToRemove, u ∈ r.tags → r ∉ m.update.getEntitiesByTag u) ∧
    (∀ d ∈ m.entities ++ m.entitiesToAdd, d.destroy = true → u ∈ d.tags →
      d ∉ m.update.getEntitiesByTag u) := by
  have hstore1 : m.entitiesToAdd.foldl mapSet m.entities =
      m.entities ++ m.entitiesToAdd :=
    foldl_mapSet_eq_append _ _ hwf
  refine ⟨rfl, rfl, update_entities_eq m hwf, ?_, ?_, ?_⟩
  · intro a ha hu hnd hnr
    rw [mem_update_byTag]
    refine ⟨Or.inr ⟨ha, hu⟩, ?_⟩
    intro r hr hur hid
    rw [hstore1] at hr
    rcases List.mem_append.mp hr with hr | hr
    · exact hnr r hr hid
    · obtain ⟨hrmem, hrd⟩ := List.mem_filter.mp hr
      have hae : a = r :=
        List.inj_on_of_nodup_map hwf (List.mem_append.mpr (Or.inr ha)) hrmem hid
      rw [← hae] at hrd
      rw [hnd] at hrd
      exact Bool.false_ne_true hrd
  · intro r hr hu hmem
    rw [mem_update_byTag] at hmem
    exact hmem.2 r (List.mem_append.mpr (Or.inl hr)) hu rfl
  · intro d hd hdd hu hmem
    rw [mem_update_byTag] at hmem
    refine hmem.2 d ?_ hu rfl
    rw [hstore1]
    exact List.mem_append.mpr (Or.inr (List.mem_filter.mpr ⟨hd, hdd⟩))

/-- Witness for C2: in the sample manager, the staged entity with the
`obstacle` tag is present in that tag's bucket after the flush. -/
theorem claim_C2_witness :
    sampleEntityC ∈ sampleManager.update.getEntitiesByTag "obstacle" :=
  (claim_C2 sampleManager sampleEntityA ["Transform"] "obstacle"
      (by decide)).2.2.2.1 sampleEntityC (by decide) (by decide) rfl
    (by decide)

/-- Every entity surviving a flush has its destroy flag unset. -/
theorem mem_update_entities_destroy_false (m : EntityManager) (y : Entity)
    (hy : y ∈ m.update.entities) : y.destroy = false := by
  unfold EntityManager.update at hy
  simp only at hy
  rw [foldl_removeFilter] at hy
  obtain ⟨hmem, hpred⟩ := List.mem_filter.mp hy
  by_contra hne
  have hyd : y.destroy = true := by
    cases hd : y.destroy
    · exact absurd hd hne
    · rfl
  have hyf : y ∈ (m.entitiesToAdd.foldl mapSet m.entities).filter
      (fun e => e.destroy) :=
    List.mem_filter.mpr ⟨hmem, hyd⟩
  have hall := List.all_eq_true.mp hpred y (List.mem_append.mpr (Or.inr hyf))
  simp at hall

/-- Claim C10: when `update()` returns, both staging buffers are empty
and no stored entity has the destroy flag; in particular an entity staged
for addition with destroy already set is inserted and removed within the
same flush (the additions are applied before the destroy scan), so it is
never present afterwards and is never observable by queries. -/
theorem claim_C10 (m : EntityManager) (x e : Entity) :
    m.update.entitiesToAdd = [] ∧
    m.update.entitiesToRemove = [] ∧
    (x ∈ m.update.entities → x.destroy = false) ∧
    (e.destroy = true → e ∉ m.update.entities) := by
  refine ⟨rfl, rfl, mem_update_entities_destroy_false m x, ?_⟩
  intro hed hmem
  have hfalse := mem_update_entities_destroy_false m e hmem
  rw [hed] at hfalse
  exact absurd hfalse (by simp)

/-- An entity staged for addition with the destroy flag already set. -/
def sampleStillborn : Entity :=
  { id := 9, componentKinds := ["Particle"], tags := ["particle"],
    active := true, destroy := true }

/-- A manager whose only staged addition is already flagged destroy. -/
def sampleManagerTwo : EntityManager :=
  { entities := [], entitiesByTag := [],
    entitiesToAdd := [sampleStillborn], entitiesToRemove := [] }

/-- Witness for C10: the destroy-flagged staged entity is not in the
store after the very flush that inserted it. -/
theorem claim_C10_witness :
    sampleStillborn ∉ sampleManagerTwo.update.entities :=
  (claim_C10 sampleManagerTwo sampleStillborn sampleStillborn).2.2.2 rfl

end ChromaticRush
